import Mathlib

/-!
Shallow embedding of the loan-grid core (utils, store composable) and proofs
about its filter/sort/cache/pagination/virtual-scroll pipeline.

Modelling conventions:
* JavaScript numbers appearing as record ids and amounts are integers in the
  data set, so they are embedded as `Int`; scroll geometry uses `Nat` inputs
  (non-negative offsets and sizes) with `Int` results where the code can go
  negative.
* `Array.prototype.sort` with a comparator is specified to be stable; it is
  embedded as `List.insertionSort`, the stable sort, ordered by
  comparator-result non-positive.
* `String.prototype.toLowerCase` is embedded as a character map with
  `Char.toLower` (the data is ASCII); JS string `<` is the lexicographic
  order on characters, which is the `String` order used here.
* `JSON.stringify` of the fixed-shape key record is injective on
  (filters, sortColumn, sortDirection), so the cache key is embedded as the
  triple itself rather than its serialized text.
* `Map<string, Loan[]>` is embedded as an association list; `set` on an
  absent key prepends, `size` is the list length.
* The Vue `computed` is embedded in two parts: `filteredAndSortedLoans` is
  its getter body (one evaluation of the body), and `VueStoreState` with
  `computedRead` adds the wrapper itself: the computed memoizes its last
  value and re-collects reactive dependencies per run, a cache-hit run
  returns before reading `allLoans.value` and therefore tracks only
  `filterState` and `sortState`, and the plain `Map` is not reactive, so
  neither `Map.clear` nor (after a hit run) an `allLoans` write dirties it.
  The `StoreState`-level action functions evaluate the body per read; they
  coincide with the wrapper semantics on runs that execute the body (a miss,
  or a read right after the criteria changed), which covers the concrete
  traces they are used for; the cache-correctness analysis uses the full
  wrapper model.
-/

namespace LoanGrid

/-- Loan status enumeration from types.ts. -/
inductive Status where
  | Pending
  | Approved
  | Rejected
deriving DecidableEq, Repr

/-- The serialized form of a status, as it appears in JSON data and in
string comparisons against `FilterState.status`. -/
def Status.str : Status → String
  | .Pending => "Pending"
  | .Approved => "Approved"
  | .Rejected => "Rejected"

/-- Record type from types.ts. -/
structure Loan where
  id : Int
  borrowerName : String
  amount : Int
  status : Status
  closeDate : String
deriving DecidableEq, Repr

/-- Sortable column selector (keyof Loan). -/
inductive SortableColumn where
  | id
  | borrowerName
  | amount
  | status
  | closeDate
deriving DecidableEq, Repr

/-- Sort direction from types.ts: asc, desc or none. -/
inductive SortDirection where
  | asc
  | desc
  | none
deriving DecidableEq, Repr

/-- SortState from types.ts. -/
structure SortState where
  column : Option SortableColumn
  direction : SortDirection
deriving DecidableEq, Repr

/-- FilterState from types.ts.  Optional TS fields become `Option`. -/
structure FilterState where
  search : String
  status : String
  minAmount : Option Int
  maxAmount : Option Int
  startDate : Option String
  endDate : Option String
deriving DecidableEq, Repr

/-- PaginationState from types.ts. -/
structure PaginationState where
  pageSize : Nat
  currentPage : Nat
  totalPages : Nat
  loadedRowsCount : Nat
deriving DecidableEq, Repr

/-- JS `toLowerCase`, embedded as a character map (`String.toLower` maps
`Char.toLower` over the string; this structural form evaluates in the
kernel). -/
def jsToLower (s : String) : String :=
  String.mk (s.data.map Char.toLower)

/-- Three-way comparison in a linear order, mirroring the JS idiom
`if (a < b) -1 else if (a > b) 1 else tie`. -/
def lcmp {α : Type} [LinearOrder α] (a b : α) : Ordering :=
  if a < b then .lt else if b < a then .gt else .eq

/-- The sort-key comparison of `sortLoans` for one column: the column values
are compared directly, string values case-insensitively. -/
def colCmp (column : SortableColumn) (a b : Loan) : Ordering :=
  match column with
  | .id => lcmp a.id b.id
  | .borrowerName => lcmp (jsToLower a.borrowerName) (jsToLower b.borrowerName)
  | .amount => lcmp a.amount b.amount
  | .status => lcmp (jsToLower a.status.str) (jsToLower b.status.str)
  | .closeDate => lcmp (jsToLower a.closeDate) (jsToLower b.closeDate)

/-- The comparator body of `sortLoans` before the direction flip: -1 / 1 on
strict column comparisons, and the id difference as tie-break. -/
def threeWay (column : SortableColumn) (a b : Loan) : Int :=
  match colCmp column a b with
  | .lt => -1
  | .gt => 1
  | .eq => a.id - b.id

/-- The full comparator passed to `sort`: `direction === 'desc' ? -result :
result`. -/
def jsCompare (column : SortableColumn) (direction : SortDirection)
    (a b : Loan) : Int :=
  if direction = .desc then - threeWay column a b else threeWay column a b

/-- utils `sortLoans`: identity when no column or direction none, otherwise a
stable sort of a copy by the comparator. -/
def sortLoans (loans : List Loan) (column : Option SortableColumn)
    (direction : SortDirection) : List Loan :=
  match column with
  | Option.none => loans
  | some col =>
    if direction = SortDirection.none then loans
    else loans.insertionSort (fun a b => jsCompare col direction a b ≤ 0)

/-- Search guard of `filterLoans`: pass when the search text is falsy (empty)
or is a case-insensitive substring of the borrower name. -/
def searchPass (f : FilterState) (loan : Loan) : Bool :=
  f.search = "" ||
    decide ((jsToLower f.search).data <:+: (jsToLower loan.borrowerName).data)

/-- Status guard of `filterLoans`: pass when the status filter is falsy or
"All", or equals the loan status. -/
def statusPass (f : FilterState) (loan : Loan) : Bool :=
  f.status = "" || f.status = "All" || loan.status.str = f.status

/-- Minimum-amount guard: reject when the bound is present (`!== undefined`)
and the amount is below it. -/
def minAmountPass (f : FilterState) (loan : Loan) : Bool :=
  match f.minAmount with
  | some m => decide (m ≤ loan.amount)
  | Option.none => true

/-- Maximum-amount guard: reject when the bound is present and the amount is
above it. -/
def maxAmountPass (f : FilterState) (loan : Loan) : Bool :=
  match f.maxAmount with
  | some m => decide (loan.amount ≤ m)
  | Option.none => true

/-- Start-date guard: reject when the bound is truthy (present and non-empty)
and the close date is strictly before it. -/
def startDatePass (f : FilterState) (loan : Loan) : Bool :=
  match f.startDate with
  | some s => s = "" || decide (¬ loan.closeDate < s)
  | Option.none => true

/-- End-date guard: reject when the bound is truthy and the close date is
strictly after it. -/
def endDatePass (f : FilterState) (loan : Loan) : Bool :=
  match f.endDate with
  | some s => s = "" || decide (¬ s < loan.closeDate)
  | Option.none => true

/-- The filter callback of `filterLoans`: the early-return chain is the
conjunction of the six guards, tested in source order. -/
def loanMatches (f : FilterState) (loan : Loan) : Bool :=
  searchPass f loan && statusPass f loan && minAmountPass f loan &&
    maxAmountPass f loan && startDatePass f loan && endDatePass f loan

/-- utils `filterLoans`. -/
def filterLoans (loans : List Loan) (filters : FilterState) : List Loan :=
  loans.filter (loanMatches filters)

/-- Cache key contents: `getCacheKey` serializes this fixed-shape record with
`JSON.stringify`, which is injective on it, so the triple itself is the key. -/
structure CacheKey where
  filters : FilterState
  sortColumn : Option SortableColumn
  sortDirection : SortDirection
deriving DecidableEq, Repr

/-- utils `getCacheKey`. -/
def getCacheKey (filters : FilterState) (sortColumn : Option SortableColumn)
    (sortDirection : SortDirection) : CacheKey :=
  ⟨filters, sortColumn, sortDirection⟩

/-- JS `Math.ceil(a / b)` for natural `a` and positive natural `b`
(used for `totalPages`; JS yields Infinity at b = 0, outside this model). -/
def jsCeilDiv (a b : Nat) : Nat :=
  (a + b - 1) / b

/-- utils `calculateVisibleRange`: floor and ceil of the exact divisions are
`Nat` floor- and ceiling-division; the subtraction and the `totalItems - 1`
clamp live in `Int` as in JS. -/
def calculateVisibleRange (scrollTop containerHeight itemHeight totalItems : Nat)
    (overscan : Nat := 5) : Int × Int :=
  let startIndex : Int :=
    max 0 ((scrollTop / itemHeight : Nat) - (overscan : Int))
  let endIndex : Int :=
    min ((totalItems : Int) - 1)
      ((jsCeilDiv (scrollTop + containerHeight) itemHeight : Nat) + (overscan : Int))
  (startIndex, endIndex)

/-- The memoization cache `resultCache : Map<string, Loan[]>` as an
association list (insertion at the front models `set` of an absent key). -/
abbrev Cache : Type := List (CacheKey × List Loan)

/-- `Map.has` / `Map.get` combined. -/
def cacheLookup (c : Cache) (k : CacheKey) : Option (List Loan) :=
  match c with
  | [] => Option.none
  | (k', v) :: rest => if k' = k then some v else cacheLookup rest k

/-- `Map.size`. -/
def cacheSize (c : Cache) : Nat :=
  List.length c

/-- The whole module-level state of useLoanStore.ts. -/
structure StoreState where
  allLoans : List Loan
  loadedLoans : List Loan
  isLoading : Bool
  error : Option String
  sortState : SortState
  filterState : FilterState
  pagination : PaginationState
  resultCache : Cache
deriving DecidableEq

/-- The getter body of the computed `filteredAndSortedLoans` (one
evaluation of the body): look the canonical key up in the cache; on a miss
filter then sort, clear the cache if it holds more than 100 entries, and
store.  Returns the value together with the cache after the evaluation.
The computed wrapper around this body (its own memoization and dependency
tracking) is `computedRead` below. -/
def filteredAndSortedLoans (s : StoreState) : List Loan × Cache :=
  let cacheKey := getCacheKey s.filterState s.sortState.column s.sortState.direction
  match cacheLookup s.resultCache cacheKey with
  | some v => (v, s.resultCache)
  | Option.none =>
    let filtered := filterLoans s.allLoans s.filterState
    let sorted := sortLoans filtered s.sortState.column s.sortState.direction
    let cleared := if cacheSize s.resultCache > 100 then [] else s.resultCache
    (sorted, (cacheKey, sorted) :: cleared)

/-- Store action `loadNextPage`. -/
def loadNextPage (s : StoreState) : StoreState :=
  let pageSize := s.pagination.pageSize
  let currentPage := s.pagination.currentPage
  let startIndex := currentPage * pageSize
  let vc := filteredAndSortedLoans s
  let nextPageData := (vc.1.drop startIndex).take pageSize
  let s1 := { s with resultCache := vc.2 }
  if nextPageData.length > 0 then
    let newLoaded :=
      if currentPage = 0 then nextPageData else s1.loadedLoans ++ nextPageData
    { s1 with
      loadedLoans := newLoaded,
      pagination := { s1.pagination with
        currentPage := currentPage + 1,
        loadedRowsCount := newLoaded.length,
        totalPages := jsCeilDiv vc.1.length pageSize } }
  else s1

/-- Store action `setPageSize`: clear the cache, reset the counters, load
`[0, newPageSize)` of the current view and recompute the totals. -/
def setPageSize (s : StoreState) (newPageSize : Nat) : StoreState :=
  let vc := filteredAndSortedLoans { s with resultCache := [] }
  let newLoaded := vc.1.take newPageSize
  { s with
    resultCache := vc.2,
    loadedLoans := newLoaded,
    pagination := {
      pageSize := newPageSize,
      currentPage := 1,
      loadedRowsCount := newLoaded.length,
      totalPages := jsCeilDiv vc.1.length newPageSize } }

/-- Store action `resetPagination`: zero the page counters (the loaded-rows
buffer itself is not touched) and load the first page. -/
def resetPagination (s : StoreState) : StoreState :=
  loadNextPage { s with
    pagination := { s.pagination with currentPage := 0, loadedRowsCount := 0 } }

/-- Store action `setSortState` (the column parameter is `keyof Loan`, never
null). -/
def setSortState (s : StoreState) (column : SortableColumn)
    (direction : SortDirection) : StoreState :=
  resetPagination { s with
    resultCache := [],
    sortState := { column := some column, direction } }

/-- A `Partial<FilterState>`: each field is absent (`none`, key not given) or
present with a value to write (possibly `undefined`, i.e. the inner
`Option` for optional fields). -/
structure FilterUpdate where
  search : Option String := Option.none
  status : Option String := Option.none
  minAmount : Option (Option Int) := Option.none
  maxAmount : Option (Option Int) := Option.none
  startDate : Option (Option String) := Option.none
  endDate : Option (Option String) := Option.none

/-- The spread `{ ...filterState, ...newFilter }`. -/
def mergeFilter (old : FilterState) (u : FilterUpdate) : FilterState :=
  { search := u.search.getD old.search,
    status := u.status.getD old.status,
    minAmount := u.minAmount.getD old.minAmount,
    maxAmount := u.maxAmount.getD old.maxAmount,
    startDate := u.startDate.getD old.startDate,
    endDate := u.endDate.getD old.endDate }

/-- Store action `setFilter`. -/
def setFilter (s : StoreState) (newFilter : FilterUpdate) : StoreState :=
  resetPagination { s with
    resultCache := [],
    filterState := mergeFilter s.filterState newFilter }

/-- Store action `clearCache`. -/
def clearCache (s : StoreState) : StoreState :=
  { s with resultCache := [] }

/-- A value thrown in JS: an `Error` carrying a message, or anything else. -/
inductive JsThrown where
  | jsError (message : String)
  | nonError
deriving DecidableEq, Repr

/-- `err instanceof Error ? err.message : 'Failed to load data'`. -/
def JsThrown.messageOr : JsThrown → String
  | .jsError m => m
  | .nonError => "Failed to load data"

/-- The outcome of the `fetch`/`json` sequence inside `loadInitialData`:
a parsed array, a non-OK response, a rejected fetch, or a failed parse. -/
inductive FetchOutcome where
  | ok (data : List Loan)
  | notOk (statusText : String)
  | fetchRejected (e : JsThrown)
  | parseFailed (e : JsThrown)
deriving DecidableEq, Repr

/-- Whether the outcome takes a failure path. -/
def FetchOutcome.isFailure : FetchOutcome → Bool
  | .ok _ => false
  | _ => true

/-- The try block of `loadInitialData`: set the loading flag, clear the
error, then either store the dataset and load the first page, or throw
(the non-OK branch throws its own `Error`). -/
def loadTryBody (s : StoreState) (o : FetchOutcome) : Except JsThrown StoreState :=
  let s1 := { s with isLoading := true, error := Option.none }
  match o with
  | .ok data => Except.ok (loadNextPage { s1 with allLoans := data })
  | .notOk statusText =>
    Except.error (JsThrown.jsError ("Failed to load data: " ++ statusText))
  | .fetchRejected e => Except.error e
  | .parseFailed e => Except.error e

/-- `loadInitialData` as seen across the action boundary: the catch block
records the message (every throw happens while the state is the flagged
`s1`), and the finally block clears the loading flag on both paths.  The
`Except` result shows what escapes to the caller. -/
def loadInitialDataRun (s : StoreState) (o : FetchOutcome) :
    Except JsThrown StoreState :=
  match loadTryBody s o with
  | Except.ok s2 => Except.ok { s2 with isLoading := false }
  | Except.error err =>
    Except.ok { s with isLoading := false, error := some err.messageOr }

/-- The state after `loadInitialData` (total: the catch block swallows every
failure). -/
def loadInitialData (s : StoreState) (o : FetchOutcome) : StoreState :=
  match loadInitialDataRun s o with
  | Except.ok s' => s'
  | Except.error _ => s

/-- The initial value of `filterState`. -/
def initialFilter : FilterState :=
  { search := "", status := "All", minAmount := Option.none,
    maxAmount := Option.none, startDate := Option.none, endDate := Option.none }

/-- The module-level initial state of the store singleton. -/
def moduleInit : StoreState :=
  { allLoans := [],
    loadedLoans := [],
    isLoading := false,
    error := Option.none,
    sortState := { column := Option.none, direction := SortDirection.none },
    filterState := initialFilter,
    pagination := { pageSize := 25, currentPage := 0, totalPages := 0,
                    loadedRowsCount := 0 },
    resultCache := [] }

/-- One store action, for quantifying over action sequences. -/
inductive Action where
  | loadNextPage
  | setPageSize (n : Nat)
  | setSortState (column : SortableColumn) (direction : SortDirection)
  | setFilter (u : FilterUpdate)
  | resetPagination
  | clearCache
  | loadInitialData (o : FetchOutcome)

/-- Whether an action is the dataset-replacing `loadInitialData`. -/
def Action.isLoad : Action → Bool
  | .loadInitialData _ => true
  | _ => false

/-- Interpret one action on the store state. -/
def step (s : StoreState) (a : Action) : StoreState :=
  match a with
  | .loadNextPage => loadNextPage s
  | .setPageSize n => setPageSize s n
  | .setSortState c d => setSortState s c d
  | .setFilter u => setFilter s u
  | .resetPagination => resetPagination s
  | .clearCache => clearCache s
  | .loadInitialData o => loadInitialData s o

/-- Run a sequence of actions left to right. -/
def runActions (s : StoreState) (acts : List Action) : StoreState :=
  acts.foldl step s

/-! Concrete fixtures used by scenario theorems and counterexamples. -/

/-- A sample approved loan. -/
def loanAlice : Loan :=
  { id := 1, borrowerName := "Alice", amount := 1000, status := Status.Approved,
    closeDate := "2024-01-15" }

/-- A second sample loan with a different id. -/
def loanBob : Loan :=
  { id := 2, borrowerName := "Bob", amount := 2000, status := Status.Pending,
    closeDate := "2024-02-20" }

/-- The store after an initial successful load of the one-row dataset. -/
def c1S1 : StoreState := loadInitialData moduleInit (FetchOutcome.ok [loanAlice])

/-- The store after loading the `loanAlice` dataset and then setting a search
filter that matches nothing. -/
def c3S2 : StoreState := setFilter c1S1 { search := some "zzz" }

/-- A 60-row dataset for the pagination scenario. -/
def ds60 : List Loan :=
  (List.range 60).map (fun n =>
    { id := (n : Int), borrowerName := "b", amount := (n : Int),
      status := Status.Pending, closeDate := "2024" })

/-- Reset store holding the 60-row dataset, page size 25. -/
def c4Init : StoreState := { moduleInit with allLoans := ds60 }

/-- One `loadNextPage` from reset. -/
def c4S1 : StoreState := loadNextPage c4Init

/-- Two `loadNextPage` from reset. -/
def c4S2 : StoreState := loadNextPage c4S1

/-- Three `loadNextPage` from reset. -/
def c4S3 : StoreState := loadNextPage c4S2

/-- A filter state whose search text is the decimal print of `n` (used to
build many distinct cache keys). -/
def c7Filter (n : Nat) : FilterState :=
  { initialFilter with search := toString n }

/-- A cache already holding 100 distinct keys. -/
def c7Cache : Cache :=
  (List.range 100).map (fun n =>
    (getCacheKey (c7Filter n) Option.none SortDirection.none, ([] : List Loan)))

/-- A store state whose current criteria miss the 100-entry cache. -/
def c7State : StoreState :=
  { moduleInit with filterState := c7Filter 100, resultCache := c7Cache }

/-! C3: the loaded-rows prefix invariant. -/

/-- C3 (code bug evaluation): after loading a one-row dataset and then
setting a filter that matches nothing, `resetPagination` zeroes
`loadedRowsCount` but leaves the stale row in `loadedLoans`, so the buffer
is not the `[0, loadedCount)` prefix of the (empty) filtered+sorted view. -/
theorem c3_prefix_invariant_violated :
    c3S2.pagination.loadedRowsCount = 0 ∧
    c3S2.loadedLoans = [loanAlice] ∧
    (filteredAndSortedLoans c3S2).1 = [] ∧
    c3S2.loadedLoans ≠
      (filteredAndSortedLoans c3S2).1.take c3S2.pagination.loadedRowsCount := by
  decide

/-! C10: loadedRowsCount always equals the exposed buffer length. -/

/-- C10 (code bug evaluation): in the same stale-buffer state the advertised
`loadedRowsCount` is 0 while the exposed `loadedLoans` buffer has length 1. -/
theorem c10_count_disagrees_with_buffer :
    c3S2.pagination.loadedRowsCount ≠ c3S2.loadedLoans.length := by
  decide

/-! C4: the loadNextPage contract and the 25/60 paging scenario. -/

/-- C4: `loadNextPage` takes effect exactly when the next slice
`[page*size, page*size+size)` of the current filtered/sorted view is
non-empty; it then replaces the buffer on page 0 and appends otherwise,
increments the page counter, keeps the count equal to the buffer length and
recomputes `totalPages = ceil(filteredCount / pageSize)`; with page size 25
and a 60-row view the loaded counts go 25, 50, 60 and a fourth call changes
nothing. -/
theorem c4_loadNextPage_contract :
    (∀ s : StoreState,
      (((filteredAndSortedLoans s).1.drop
          (s.pagination.currentPage * s.pagination.pageSize)).take
          s.pagination.pageSize).length > 0 →
        (loadNextPage s).loadedLoans =
          (if s.pagination.currentPage = 0 then
            ((filteredAndSortedLoans s).1.drop
              (s.pagination.currentPage * s.pagination.pageSize)).take
              s.pagination.pageSize
          else
            s.loadedLoans ++ ((filteredAndSortedLoans s).1.drop
              (s.pagination.currentPage * s.pagination.pageSize)).take
              s.pagination.pageSize) ∧
        (loadNextPage s).pagination.currentPage = s.pagination.currentPage + 1 ∧
        (loadNextPage s).pagination.loadedRowsCount =
          (loadNextPage s).loadedLoans.length ∧
        (loadNextPage s).pagination.totalPages =
          jsCeilDiv (filteredAndSortedLoans s).1.length s.pagination.pageSize) ∧
    (∀ s : StoreState,
      (((filteredAndSortedLoans s).1.drop
          (s.pagination.currentPage * s.pagination.pageSize)).take
          s.pagination.pageSize).length = 0 →
        (loadNextPage s).loadedLoans = s.loadedLoans ∧
        (loadNextPage s).pagination = s.pagination) ∧
    (c4S1.pagination.loadedRowsCount = 25 ∧
     c4S2.pagination.loadedRowsCount = 50 ∧
     c4S3.pagination.loadedRowsCount = 60 ∧
     loadNextPage c4S3 = c4S3) := by
  refine ⟨fun s h => ?_, fun s h => ?_, by decide⟩
  · simp only [loadNextPage]
    rw [if_pos h]
    exact ⟨rfl, rfl, rfl, rfl⟩
  · simp only [loadNextPage]
    rw [if_neg (by omega)]
    exact ⟨rfl, rfl⟩

/-- C4 witness: the contract applied at the concrete reset 60-row store. -/
theorem c4_loadNextPage_contract_witness :
    (((filteredAndSortedLoans c4Init).1.drop
        (c4Init.pagination.currentPage * c4Init.pagination.pageSize)).take
        c4Init.pagination.pageSize).length > 0 ∧
    (loadNextPage c4Init).pagination.currentPage =
      c4Init.pagination.currentPage + 1 :=
  ⟨by decide, ((c4_loadNextPage_contract.1 c4Init (by decide)).2.1)⟩

/-! C5 and C6: the visible-range calculator. -/

/-- Ceiling of an exact rational division of naturals is the rounded-up
natural division. -/
theorem natCeil_div_eq (m n : Nat) (hn : 0 < n) :
    ⌈(m : ℚ) / (n : ℚ)⌉₊ = (m + n - 1) / n := by
  rcases Nat.eq_zero_or_pos m with rfl | hmpos
  · have h0 : (0 + n - 1) / n = 0 := Nat.div_eq_of_lt (by omega)
    rw [h0, Nat.cast_zero, zero_div, Nat.ceil_zero]
  · have hd := Nat.div_add_mod (m + n - 1) n
    have hmod := Nat.mod_lt (m + n - 1) hn
    set q := (m + n - 1) / n with hq
    rw [Nat.mul_comm] at hd
    apply le_antisymm
    · rw [Nat.ceil_le, div_le_iff₀ (by exact_mod_cast hn)]
      have hnat : m ≤ q * n := by omega
      exact_mod_cast hnat
    · rcases Nat.eq_zero_or_pos q with hq0 | hqpos
      · omega
      · have h1 : q - 1 + 1 ≤ ⌈(m : ℚ) / (n : ℚ)⌉₊ := by
          rw [Nat.add_one_le_ceil_iff, lt_div_iff₀ (by exact_mod_cast hn)]
          have hsub : (q - 1) * n = q * n - n := by
            rw [Nat.sub_mul, Nat.one_mul]
          have hnat : (q - 1) * n < m := by rw [hsub]; omega
          calc ((q - 1 : ℕ) : ℚ) * n = (((q - 1) * n : ℕ) : ℚ) := by push_cast; ring
          _ < m := by exact_mod_cast hnat
        omega

/-- C5: `calculateVisibleRange` returns exactly
start = max(0, floor(scrollOffset / rowHeight) - overscan) and
end = min(totalLoadedRows - 1, ceil((scrollOffset + viewportHeight) /
rowHeight) + overscan), with floor and ceil the exact rational roundings,
and the overscan parameter defaults to 5. -/
theorem c5_calculateVisibleRange_formula :
    ∀ scrollTop containerHeight itemHeight totalItems overscan : Nat,
      0 < itemHeight →
      calculateVisibleRange scrollTop containerHeight itemHeight totalItems
          overscan =
        (max 0 ((⌊(scrollTop : ℚ) / (itemHeight : ℚ)⌋₊ : Int) - (overscan : Int)),
         min ((totalItems : Int) - 1)
           ((⌈((scrollTop : ℚ) + (containerHeight : ℚ)) / (itemHeight : ℚ)⌉₊ : Int)
             + (overscan : Int))) ∧
      calculateVisibleRange scrollTop containerHeight itemHeight totalItems =
        calculateVisibleRange scrollTop containerHeight itemHeight totalItems 5 := by
  intro s c h t o hh
  refine ⟨?_, rfl⟩
  have hfloor : ⌊(s : ℚ) / (h : ℚ)⌋₊ = s / h := Nat.floor_div_eq_div s h
  have hceil : ⌈((s : ℚ) + (c : ℚ)) / (h : ℚ)⌉₊ = jsCeilDiv (s + c) h := by
    rw [jsCeilDiv, ← natCeil_div_eq (s + c) h hh]
    norm_num
  rw [calculateVisibleRange, hfloor, hceil]

/-- C5 witness: the scenario scrollOffset 200, viewport 100, row height 20,
200 loaded rows, overscan 5 yields start 5, end 20. -/
theorem c5_calculateVisibleRange_formula_witness :
    0 < 20 ∧ calculateVisibleRange 200 100 20 200 5 = (5, 20) := by
  refine ⟨by decide, ?_⟩
  have hcast : ((200 : ℕ) : ℚ) + ((100 : ℕ) : ℚ) = ((300 : ℕ) : ℚ) := by norm_num
  rw [(c5_calculateVisibleRange_formula 200 100 20 200 5 (by decide)).1,
    Nat.floor_div_eq_div, hcast, natCeil_div_eq 300 20 (by decide)]
  norm_num

/-- C6: for positive row height the returned range has a non-negative start,
an end strictly below the loaded-row count, is ordered or empty, degenerates
to end < start when no rows are loaded, and every index inside a non-empty
range is in bounds. -/
theorem c6_calculateVisibleRange_safety :
    ∀ scrollTop containerHeight itemHeight totalItems overscan : Nat,
      0 < itemHeight →
      0 ≤ (calculateVisibleRange scrollTop containerHeight itemHeight
            totalItems overscan).1 ∧
      (calculateVisibleRange scrollTop containerHeight itemHeight totalItems
          overscan).2 < (totalItems : Int) ∧
      ((calculateVisibleRange scrollTop containerHeight itemHeight totalItems
          overscan).1 ≤
        (calculateVisibleRange scrollTop containerHeight itemHeight totalItems
          overscan).2 ∨
       (calculateVisibleRange scrollTop containerHeight itemHeight totalItems
          overscan).2 <
        (calculateVisibleRange scrollTop containerHeight itemHeight totalItems
          overscan).1) ∧
      (totalItems = 0 →
        (calculateVisibleRange scrollTop containerHeight itemHeight totalItems
          overscan).2 <
        (calculateVisibleRange scrollTop containerHeight itemHeight totalItems
          overscan).1) ∧
      (∀ i : Int,
        (calculateVisibleRange scrollTop containerHeight itemHeight totalItems
          overscan).1 ≤ i →
        i ≤ (calculateVisibleRange scrollTop containerHeight itemHeight
              totalItems overscan).2 →
        0 ≤ i ∧ i < (totalItems : Int)) := by
  intro s c h t o hh
  simp only [calculateVisibleRange]
  refine ⟨?_, ?_, ?_, ?_, ?_⟩
  · omega
  · omega
  · omega
  · intro ht; omega
  · intro i h1 h2; omega

/-- C6 witness: zero loaded rows with row height 1 give a degenerate range
(end below start) instead of a failure. -/
theorem c6_calculateVisibleRange_safety_witness :
    0 < 1 ∧
    (calculateVisibleRange 0 0 1 0 5).2 < (calculateVisibleRange 0 0 1 0 5).1 :=
  ⟨by decide, (c6_calculateVisibleRange_safety 0 0 1 0 5 (by decide)).2.2.2.1 rfl⟩

/-! C7: the cache size bound. -/

/-- C7 counterexample: a miss against a cache already holding 100 distinct
keys stores without clearing (the clear condition checks size > 100 before
the insert), so immediately after that miss the cache holds 101 entries,
exceeding the claimed post-insert cap of 100. -/
theorem c7_cache_exceeds_100 :
    cacheSize (filteredAndSortedLoans c7State).2 = 101 ∧
    ¬ cacheSize (filteredAndSortedLoans c7State).2 ≤ 100 := by
  decide

/-- C7 amended: the cache is cleared on a miss only when its pre-insert size
exceeds 100; consequently 101 entries (not 100) is the bound that every
evaluation of the memoized query preserves. -/
theorem c7_cache_bound_101 :
    ∀ s : StoreState,
      cacheSize s.resultCache ≤ 101 →
      cacheSize (filteredAndSortedLoans s).2 ≤ 101 := by
  intro s hsize
  simp only [filteredAndSortedLoans]
  cases hl : cacheLookup s.resultCache
      (getCacheKey s.filterState s.sortState.column s.sortState.direction) with
  | some v => exact hsize
  | none =>
    simp only [cacheSize] at hsize ⊢
    split_ifs with hc
    · simp
    · simp only [List.length_cons]
      omega

/-- C7 amended witness: the 100-entry cache satisfies the pre-state bound and
the evaluated cache stays within 101 entries. -/
theorem c7_cache_bound_101_witness :
    cacheSize c7State.resultCache ≤ 101 ∧
    cacheSize (filteredAndSortedLoans c7State).2 ≤ 101 :=
  ⟨by decide, c7_cache_bound_101 c7State (by decide)⟩

/-! C1: cache hits versus the uncached filter-then-sort pipeline. -/

/-- Every entry of a cache is the filter-then-sort of the given dataset under
the criteria recorded in its own key. -/
abbrev cacheConsistentFor (loans : List Loan) (c : Cache) : Prop :=
  ∀ k v, (k, v) ∈ c →
    v = sortLoans (filterLoans loans k.filters) k.sortColumn k.sortDirection

/-- The store cache is consistent with the store dataset. -/
abbrev cacheConsistent (s : StoreState) : Prop :=
  cacheConsistentFor s.allLoans s.resultCache

theorem cacheLookup_mem {c : Cache} {k : CacheKey} {v : List Loan}
    (h : cacheLookup c k = some v) : (k, v) ∈ c := by
  induction c with
  | nil => simp [cacheLookup] at h
  | cons hd tl ih =>
    obtain ⟨k', v'⟩ := hd
    simp only [cacheLookup] at h
    by_cases he : k' = k
    · rw [if_pos he] at h
      cases h
      subst he
      exact List.mem_cons_self _ _
    · rw [if_neg he] at h
      exact List.mem_cons_of_mem _ (ih h)

/-- On a consistent cache the memoized query returns the filter-then-sort of
the current dataset under the current criteria, hit or miss. -/
theorem view_value {s : StoreState} (h : cacheConsistent s) :
    (filteredAndSortedLoans s).1 =
      sortLoans (filterLoans s.allLoans s.filterState)
        s.sortState.column s.sortState.direction := by
  simp only [filteredAndSortedLoans]
  cases hl : cacheLookup s.resultCache
      (getCacheKey s.filterState s.sortState.column s.sortState.direction) with
  | some v => exact h _ _ (cacheLookup_mem hl)
  | none => rfl

/-- Evaluating the memoized query keeps the cache consistent. -/
theorem view_cache {s : StoreState} (h : cacheConsistent s) :
    cacheConsistentFor s.allLoans (filteredAndSortedLoans s).2 := by
  simp only [filteredAndSortedLoans]
  cases hl : cacheLookup s.resultCache
      (getCacheKey s.filterState s.sortState.column s.sortState.direction) with
  | some v => exact h
  | none =>
    intro k v hkv
    rcases List.mem_cons.mp hkv with heq | hmem
    · injection heq with h1 h2
      subst h1
      subst h2
      rfl
    · split at hmem
      · cases hmem
      · exact h _ _ hmem

theorem emptyCache_consistent (loans : List Loan) : cacheConsistentFor loans [] := by
  intro k v hkv
  cases hkv

/-- The state of the Vue computed wrapper after a run: the memoized value
of the last evaluation, plus whether `allLoans.value` was read during that
run (it is read only on a cache miss; `filterState` and `sortState` are
read on every run, and the plain `Map` is never a reactive dependency). -/
structure VueComputed where
  value : List Loan
  tracksAllLoans : Bool
deriving DecidableEq, Repr

/-- The store together with the `filteredAndSortedLoans` computed wrapper:
`computedMemo = some m` is a clean memoized run `m`; `none` means dirty or
never evaluated, so the next read re-runs the getter body. -/
structure VueStoreState where
  store : StoreState
  computedMemo : Option VueComputed
deriving DecidableEq

/-- Reading `filteredAndSortedLoans.value`: a clean computed returns its
memoized value without running the body; a dirty computed runs the getter
body, memoizes the value, and records `allLoans` as a dependency exactly
when the run was a cache miss. -/
def computedRead (s : VueStoreState) : List Loan × VueStoreState :=
  match s.computedMemo with
  | some m => (m.value, s)
  | Option.none =>
    let isMiss := (cacheLookup s.store.resultCache
      (getCacheKey s.store.filterState s.store.sortState.column
        s.store.sortState.direction)).isNone
    let vc := filteredAndSortedLoans s.store
    (vc.1, { store := { s.store with resultCache := vc.2 },
             computedMemo := some ⟨vc.1, isMiss⟩ })

/-- A write to `filterState` or `sortState` dirties the computed: both are
dependencies of every run. -/
def dirtyCriteria (s : VueStoreState) : VueStoreState :=
  { s with computedMemo := Option.none }

/-- A write to `allLoans` dirties the computed only when the last run
tracked it (was a miss); after a hit run the computed stays clean. -/
def dirtyAllLoans (s : VueStoreState) : VueStoreState :=
  match s.computedMemo with
  | some m =>
    if m.tracksAllLoans then { s with computedMemo := Option.none } else s
  | Option.none => s

/-- `loadNextPage` on the full state: writes to `loadedLoans` and
`paginationState` are not dependencies of the computed. -/
def vLoadNextPage (s : VueStoreState) : VueStoreState :=
  let pageSize := s.store.pagination.pageSize
  let currentPage := s.store.pagination.currentPage
  let startIndex := currentPage * pageSize
  let rd := computedRead s
  let nextPageData := (rd.1.drop startIndex).take pageSize
  let s1 := rd.2
  if nextPageData.length > 0 then
    let newLoaded :=
      if currentPage = 0 then nextPageData else s1.store.loadedLoans ++ nextPageData
    { s1 with store := { s1.store with
        loadedLoans := newLoaded,
        pagination := { s1.store.pagination with
          currentPage := currentPage + 1,
          loadedRowsCount := newLoaded.length,
          totalPages := jsCeilDiv rd.1.length pageSize } } }
  else s1

/-- `setPageSize` on the full state: clearing the plain `Map` and writing
the pagination fields dirty nothing. -/
def vSetPageSize (s : VueStoreState) (newPageSize : Nat) : VueStoreState :=
  let rd := computedRead { s with store := { s.store with resultCache := [] } }
  let newLoaded := rd.1.take newPageSize
  { rd.2 with store := { rd.2.store with
      loadedLoans := newLoaded,
      pagination := {
        pageSize := newPageSize,
        currentPage := 1,
        loadedRowsCount := newLoaded.length,
        totalPages := jsCeilDiv rd.1.length newPageSize } } }

/-- `resetPagination` on the full state. -/
def vResetPagination (s : VueStoreState) : VueStoreState :=
  vLoadNextPage { s with store := { s.store with
    pagination := { s.store.pagination with
      currentPage := 0, loadedRowsCount := 0 } } }

/-- `setSortState` on the full state: the `sortState` write dirties the
computed. -/
def vSetSortState (s : VueStoreState) (column : SortableColumn)
    (direction : SortDirection) : VueStoreState :=
  vResetPagination (dirtyCriteria { s with store := { s.store with
    resultCache := [],
    sortState := { column := some column, direction } } })

/-- `setFilter` on the full state: the `filterState` write dirties the
computed. -/
def vSetFilter (s : VueStoreState) (newFilter : FilterUpdate) : VueStoreState :=
  vResetPagination (dirtyCriteria { s with store := { s.store with
    resultCache := [],
    filterState := mergeFilter s.store.filterState newFilter } })

/-- `clearCache` on the full state: clearing the plain `Map` leaves the
computed clean. -/
def vClearCache (s : VueStoreState) : VueStoreState :=
  { s with store := { s.store with resultCache := [] } }

/-- `loadInitialData` on the full state: the `allLoans` write on success
dirties the computed only if its last run was a miss. -/
def vLoadInitialData (s : VueStoreState) (o : FetchOutcome) : VueStoreState :=
  let s1 : VueStoreState :=
    { s with store := { s.store with isLoading := true, error := Option.none } }
  match o with
  | FetchOutcome.ok data =>
    let s2 := dirtyAllLoans { s1 with store := { s1.store with allLoans := data } }
    let s3 := vLoadNextPage s2
    { s3 with store := { s3.store with isLoading := false } }
  | FetchOutcome.notOk statusText =>
    { s1 with store := { s1.store with
      error := some ("Failed to load data: " ++ statusText),
      isLoading := false } }
  | FetchOutcome.fetchRejected e =>
    { s1 with store := { s1.store with
      error := some e.messageOr, isLoading := false } }
  | FetchOutcome.parseFailed e =>
    { s1 with store := { s1.store with
      error := some e.messageOr, isLoading := false } }

/-- One store action on the full state. -/
def vStep (s : VueStoreState) (a : Action) : VueStoreState :=
  match a with
  | Action.loadNextPage => vLoadNextPage s
  | Action.setPageSize n => vSetPageSize s n
  | Action.setSortState c d => vSetSortState s c d
  | Action.setFilter u => vSetFilter s u
  | Action.resetPagination => vResetPagination s
  | Action.clearCache => vClearCache s
  | Action.loadInitialData o => vLoadInitialData s o

/-- Run a sequence of actions on the full state. -/
def vRun (s : VueStoreState) (acts : List Action) : VueStoreState :=
  acts.foldl vStep s

/-- The mounted store: module-level state, computed never evaluated. -/
def vInit : VueStoreState :=
  { store := moduleInit, computedMemo := Option.none }

/-- Cache entries agree with the dataset, and a clean computed memo holds
the filter-then-sort of the current dataset under the current criteria. -/
abbrev vueConsistent (s : VueStoreState) : Prop :=
  cacheConsistentFor s.store.allLoans s.store.resultCache ∧
  (∀ m : VueComputed, s.computedMemo = some m →
    m.value = sortLoans (filterLoans s.store.allLoans s.store.filterState)
      s.store.sortState.column s.store.sortState.direction)

theorem computedRead_value {s : VueStoreState} (h : vueConsistent s) :
    (computedRead s).1 =
      sortLoans (filterLoans s.store.allLoans s.store.filterState)
        s.store.sortState.column s.store.sortState.direction := by
  unfold computedRead
  cases hm : s.computedMemo with
  | some m => exact h.2 m hm
  | none => exact view_value h.1

theorem computedRead_consistent {s : VueStoreState} (h : vueConsistent s) :
    vueConsistent (computedRead s).2 := by
  unfold computedRead
  cases hm : s.computedMemo with
  | some m => exact h
  | none =>
    constructor
    · exact view_cache h.1
    · intro m hm2
      injection hm2 with hm3
      rw [← hm3]
      exact view_value h.1

theorem vLoadNextPage_preserves {s : VueStoreState} (h : vueConsistent s) :
    vueConsistent (vLoadNextPage s) := by
  have hc := computedRead_consistent h
  simp only [vLoadNextPage]
  split
  · exact ⟨hc.1, hc.2⟩
  · exact ⟨hc.1, hc.2⟩

theorem vResetPagination_preserves {s : VueStoreState} (h : vueConsistent s) :
    vueConsistent (vResetPagination s) := by
  unfold vResetPagination
  exact vLoadNextPage_preserves ⟨h.1, h.2⟩

theorem vStep_preserves {s : VueStoreState} {a : Action} (ha : a.isLoad = false)
    (h : vueConsistent s) : vueConsistent (vStep s a) := by
  cases a with
  | loadNextPage => exact vLoadNextPage_preserves h
  | setPageSize n =>
    have h0 : vueConsistent
        { s with store := { s.store with resultCache := ([] : Cache) } } :=
      ⟨emptyCache_consistent _, h.2⟩
    have hc := computedRead_consistent h0
    show vueConsistent (vSetPageSize s n)
    unfold vSetPageSize
    exact ⟨hc.1, hc.2⟩
  | setSortState c d =>
    have h0 : vueConsistent (dirtyCriteria { s with store := { s.store with
        resultCache := ([] : Cache),
        sortState := { column := some c, direction := d } } }) :=
      ⟨emptyCache_consistent _, fun m hm => nomatch hm⟩
    exact vResetPagination_preserves h0
  | setFilter u =>
    have h0 : vueConsistent (dirtyCriteria { s with store := { s.store with
        resultCache := ([] : Cache),
        filterState := mergeFilter s.store.filterState u } }) :=
      ⟨emptyCache_consistent _, fun m hm => nomatch hm⟩
    exact vResetPagination_preserves h0
  | resetPagination => exact vResetPagination_preserves h
  | clearCache => exact ⟨emptyCache_consistent _, h.2⟩
  | loadInitialData o => cases ha

theorem vRun_preserves {acts : List Action} :
    ∀ {s : VueStoreState}, vueConsistent s → (∀ a ∈ acts, a.isLoad = false) →
      vueConsistent (vRun s acts) := by
  induction acts with
  | nil => intro s h _; exact h
  | cons a rest ih =>
    intro s h hall
    exact ih (vStep_preserves (hall a (List.mem_cons_self a rest)) h)
      (fun b hb => hall b (List.mem_cons_of_mem a hb))

/-- The full state after an initial successful load of the Alice dataset. -/
def c1V1 : VueStoreState := vLoadInitialData vInit (FetchOutcome.ok [loanAlice])

/-- The full state after a second `loadInitialData` replaced the dataset
with the Bob dataset: the `allLoans` write dirties the computed (the first
load evaluated on a miss, which tracked `allLoans`), but the re-run hits
the stale cache entry, so it memoizes the Alice value and tracks only the
filter and sort state. -/
def c1V2 : VueStoreState := vLoadInitialData c1V1 (FetchOutcome.ok [loanBob])

/-- `c1V2` followed by `clearCache`: the Map is empty, but the computed is
still clean and memoizes the Alice value. -/
def c1V3 : VueStoreState := vClearCache c1V2

/-- C1 counterexample: after `loadInitialData` replaces the Alice dataset
with the Bob dataset, the next query serves the stale Alice result; and
even with an intervening `clearCache` (the Map is verifiably empty) the
computed, whose last hit run tracked only filter and sort state, stays
clean and keeps serving the Alice value — so with or without the clear a
query differs from the filter-then-sort of the current raw dataset. -/
theorem c1_stale_hit_survives_cache_clear :
    (computedRead c1V2).1 = [loanAlice] ∧
    (computedRead c1V3).1 = [loanAlice] ∧
    c1V3.store.resultCache = [] ∧
    sortLoans (filterLoans c1V3.store.allLoans c1V3.store.filterState)
      c1V3.store.sortState.column c1V3.store.sortState.direction = [loanBob] ∧
    (computedRead c1V3).1 ≠
      sortLoans (filterLoans c1V3.store.allLoans c1V3.store.filterState)
        c1V3.store.sortState.column c1V3.store.sortState.direction := by
  decide

/-- C1 amended: for every sequence of store actions that does not contain
`loadInitialData` (the raw dataset unchanged), starting from the initial
store — or any state whose cache entries and clean computed memo agree with
the current dataset and criteria — every query returns a result
structurally equal to the uncached
`sortLoans(filterLoans(allLoans, filterState), column, direction)`. -/
theorem c1_query_matches_pipeline_without_reload :
    ∀ (s : VueStoreState) (acts : List Action),
      vueConsistent s → (∀ a ∈ acts, a.isLoad = false) →
      (computedRead (vRun s acts)).1 =
        sortLoans
          (filterLoans (vRun s acts).store.allLoans
            (vRun s acts).store.filterState)
          (vRun s acts).store.sortState.column
          (vRun s acts).store.sortState.direction := by
  intro s acts h hall
  exact computedRead_value (vRun_preserves h hall)

/-- C1 amended witness: the guarantee applied to the mounted store and one
`loadNextPage`. -/
theorem c1_query_matches_pipeline_without_reload_witness :
    vueConsistent vInit ∧
    (computedRead (vRun vInit [Action.loadNextPage])).1 =
      sortLoans
        (filterLoans (vRun vInit [Action.loadNextPage]).store.allLoans
          (vRun vInit [Action.loadNextPage]).store.filterState)
        (vRun vInit [Action.loadNextPage]).store.sortState.column
        (vRun vInit [Action.loadNextPage]).store.sortState.direction := by
  have hc : vueConsistent vInit :=
    ⟨emptyCache_consistent [], fun m hm => nomatch hm⟩
  refine ⟨hc, c1_query_matches_pipeline_without_reload vInit
    [Action.loadNextPage] hc ?_⟩
  intro a ha
  rw [List.mem_singleton] at ha
  subst ha
  rfl

/-! C2: tie-breaking and determinism of sortLoans. -/

theorem lcmp_lt_iff {α : Type} [LinearOrder α] {x y : α} :
    lcmp x y = Ordering.lt ↔ x < y := by
  unfold lcmp
  split_ifs with h1 h2
  · simp [h1]
  · simp [h1]
  · simp [h1]

theorem lcmp_eq_iff {α : Type} [LinearOrder α] {x y : α} :
    lcmp x y = Ordering.eq ↔ x = y := by
  unfold lcmp
  split_ifs with h1 h2
  · simp [h1.ne]
  · simp [h2.ne']
  · simp [le_antisymm (not_lt.mp h2) (not_lt.mp h1)]

theorem lcmp_gt_iff {α : Type} [LinearOrder α] {x y : α} :
    lcmp x y = Ordering.gt ↔ y < x := by
  unfold lcmp
  split_ifs with h1 h2
  · simp [h1, lt_asymm h1]
  · simp [h2]
  · simp [h2]

theorem lcmp_swap {α : Type} [LinearOrder α] (x y : α) :
    lcmp y x = (lcmp x y).swap := by
  rcases lt_trichotomy x y with h | rfl | h
  · rw [lcmp_gt_iff.mpr h, lcmp_lt_iff.mpr h]
    rfl
  · rw [lcmp_eq_iff.mpr rfl]
    rfl
  · rw [lcmp_lt_iff.mpr h, lcmp_gt_iff.mpr h]
    rfl

theorem lexTie_swap {α : Type} [LinearOrder α] (x y : α) (ia ib : Int) :
    (match lcmp y x with | .lt => (-1 : Int) | .gt => 1 | .eq => ib - ia) =
      - (match lcmp x y with | .lt => (-1 : Int) | .gt => 1 | .eq => ia - ib) := by
  rcases lt_trichotomy x y with h | rfl | h
  · rw [lcmp_lt_iff.mpr h, lcmp_gt_iff.mpr h]
    show (1 : Int) = - (-1)
    decide
  · rw [lcmp_eq_iff.mpr rfl]
    show ib - ia = - (ia - ib)
    ring
  · rw [lcmp_lt_iff.mpr h, lcmp_gt_iff.mpr h]

theorem lexTie_total {α : Type} [LinearOrder α] (x y : α) (ia ib : Int) :
    (match lcmp x y with | .lt => (-1 : Int) | .gt => 1 | .eq => ia - ib) ≤ 0 ∨
    (match lcmp y x with | .lt => (-1 : Int) | .gt => 1 | .eq => ib - ia) ≤ 0 := by
  rcases lt_trichotomy x y with h | rfl | h
  · left
    rw [lcmp_lt_iff.mpr h]
    show (-1 : Int) ≤ 0
    decide
  · rw [lcmp_eq_iff.mpr rfl]
    show ia - ib ≤ 0 ∨ ib - ia ≤ 0
    omega
  · right
    rw [lcmp_lt_iff.mpr h]
    show (-1 : Int) ≤ 0
    decide

theorem lexTie_trans {α : Type} [LinearOrder α] {x y z : α} {ia ib ic : Int} :
    (match lcmp x y with | .lt => (-1 : Int) | .gt => 1 | .eq => ia - ib) ≤ 0 →
    (match lcmp y z with | .lt => (-1 : Int) | .gt => 1 | .eq => ib - ic) ≤ 0 →
    (match lcmp x z with | .lt => (-1 : Int) | .gt => 1 | .eq => ia - ic) ≤ 0 := by
  intro h1 h2
  cases hxy : lcmp x y with
  | lt =>
    have hx : x < y := lcmp_lt_iff.mp hxy
    cases hyz : lcmp y z with
    | lt =>
      rw [lcmp_lt_iff.mpr (hx.trans (lcmp_lt_iff.mp hyz))]
      show (-1 : Int) ≤ 0
      decide
    | eq =>
      rw [lcmp_eq_iff.mp hyz] at hx
      rw [lcmp_lt_iff.mpr hx]
      show (-1 : Int) ≤ 0
      decide
    | gt =>
      rw [hyz] at h2
      have h2a : (1 : Int) ≤ 0 := h2
      omega
  | eq =>
    have hx : x = y := lcmp_eq_iff.mp hxy
    subst hx
    rw [hxy] at h1
    have h1a : ia - ib ≤ 0 := h1
    cases hyz : lcmp x z with
    | lt =>
      show (-1 : Int) ≤ 0
      decide
    | eq =>
      rw [hyz] at h2
      have h2a : ib - ic ≤ 0 := h2
      show ia - ic ≤ 0
      omega
    | gt =>
      rw [hyz] at h2
      have h2a : (1 : Int) ≤ 0 := h2
      omega
  | gt =>
    rw [hxy] at h1
    have h1a : (1 : Int) ≤ 0 := h1
    omega

theorem threeWay_swap (col : SortableColumn) (a b : Loan) :
    threeWay col b a = - threeWay col a b := by
  cases col <;> simp only [threeWay, colCmp] <;> exact lexTie_swap _ _ _ _

theorem colCmp_swap (col : SortableColumn) (a b : Loan) :
    colCmp col b a = (colCmp col a b).swap := by
  cases col <;> simp only [colCmp] <;> exact lcmp_swap _ _

theorem threeWay_le_total (col : SortableColumn) (a b : Loan) :
    threeWay col a b ≤ 0 ∨ threeWay col b a ≤ 0 := by
  cases col <;> simp only [threeWay, colCmp] <;> exact lexTie_total _ _ _ _

theorem threeWay_le_trans (col : SortableColumn) {a b c : Loan} :
    threeWay col a b ≤ 0 → threeWay col b c ≤ 0 → threeWay col a c ≤ 0 := by
  cases col <;> simp only [threeWay, colCmp] <;> exact lexTie_trans

theorem threeWay_tie (col : SortableColumn) {a b : Loan}
    (h : colCmp col a b = Ordering.eq) : threeWay col a b = a.id - b.id := by
  rw [threeWay, h]

/-- Two loans tied on their amount, with ids 1 and 2. -/
def loanTieA : Loan :=
  { id := 1, borrowerName := "a", amount := 100, status := Status.Pending,
    closeDate := "2024-01-01" }

/-- See `loanTieA`. -/
def loanTieB : Loan :=
  { id := 2, borrowerName := "b", amount := 100, status := Status.Pending,
    closeDate := "2024-01-02" }

/-- C2 counterexample: two loans tied on amount, sorted by amount
descending; the output orders them by descending id (2 before 1), not by
ascending id as the claim requires regardless of direction. -/
theorem c2_desc_tie_not_ascending :
    colCmp SortableColumn.amount loanTieA loanTieB = Ordering.eq ∧
    loanTieA.id < loanTieB.id ∧
    sortLoans [loanTieA, loanTieB] (some SortableColumn.amount)
      SortDirection.desc = [loanTieB, loanTieA] ∧
    sortLoans [loanTieA, loanTieB] (some SortableColumn.amount)
      SortDirection.desc ≠ [loanTieA, loanTieB] := by
  decide

theorem jsCompare_asc (col : SortableColumn) (a b : Loan) :
    jsCompare col SortDirection.asc a b = threeWay col a b := by
  unfold jsCompare
  rw [if_neg (by decide)]

theorem jsCompare_desc (col : SortableColumn) (a b : Loan) :
    jsCompare col SortDirection.desc a b = threeWay col b a := by
  unfold jsCompare
  rw [if_pos rfl, threeWay_swap col a b]

instance ascCmpTotal (col : SortableColumn) :
    IsTotal Loan (fun a b => jsCompare col SortDirection.asc a b ≤ 0) :=
  ⟨fun a b => by
    show jsCompare col SortDirection.asc a b ≤ 0 ∨
      jsCompare col SortDirection.asc b a ≤ 0
    rw [jsCompare_asc, jsCompare_asc]
    exact threeWay_le_total col a b⟩

instance ascCmpTrans (col : SortableColumn) :
    IsTrans Loan (fun a b => jsCompare col SortDirection.asc a b ≤ 0) :=
  ⟨fun a b x h1 h2 => by
    rw [jsCompare_asc] at h1 h2 ⊢
    exact threeWay_le_trans col h1 h2⟩

instance descCmpTotal (col : SortableColumn) :
    IsTotal Loan (fun a b => jsCompare col SortDirection.desc a b ≤ 0) :=
  ⟨fun a b => by
    show jsCompare col SortDirection.desc a b ≤ 0 ∨
      jsCompare col SortDirection.desc b a ≤ 0
    rw [jsCompare_desc, jsCompare_desc]
    exact threeWay_le_total col b a⟩

instance descCmpTrans (col : SortableColumn) :
    IsTrans Loan (fun a b => jsCompare col SortDirection.desc a b ≤ 0) :=
  ⟨fun a b x h1 h2 => by
    rw [jsCompare_desc] at h1 h2 ⊢
    exact threeWay_le_trans col h2 h1⟩

theorem sortLoans_asc_eq (l : List Loan) (col : SortableColumn) :
    sortLoans l (some col) SortDirection.asc =
      l.insertionSort (fun a b => jsCompare col SortDirection.asc a b ≤ 0) := by
  simp only [sortLoans]
  rw [if_neg (by decide)]

theorem sortLoans_desc_eq (l : List Loan) (col : SortableColumn) :
    sortLoans l (some col) SortDirection.desc =
      l.insertionSort (fun a b => jsCompare col SortDirection.desc a b ≤ 0) := by
  simp only [sortLoans]
  rw [if_neg (by decide)]

/-- C2 amended: sorting is idempotent (and, being a pure function,
deterministic), and ties on the sort key are broken by ascending id when the
direction is asc but by descending id when the direction is desc: flipping
the direction negates the whole comparator, id tie-break included. -/
theorem c2_sortLoans_tiebreak_and_idempotence :
    (∀ (l : List Loan) (col : Option SortableColumn) (d : SortDirection),
      sortLoans (sortLoans l col d) col d = sortLoans l col d) ∧
    (∀ (l : List Loan) (col : SortableColumn),
      (sortLoans l (some col) SortDirection.asc).Pairwise
        (fun a b => colCmp col a b = Ordering.eq → a.id ≤ b.id)) ∧
    (∀ (l : List Loan) (col : SortableColumn),
      (sortLoans l (some col) SortDirection.desc).Pairwise
        (fun a b => colCmp col a b = Ordering.eq → b.id ≤ a.id)) := by
  refine ⟨?_, ?_, ?_⟩
  · intro l col d
    match col, d with
    | Option.none, _ => rfl
    | some c, SortDirection.none => simp [sortLoans]
    | some c, SortDirection.asc =>
      rw [sortLoans_asc_eq, sortLoans_asc_eq]
      exact (List.sorted_insertionSort _ l).insertionSort_eq
    | some c, SortDirection.desc =>
      rw [sortLoans_desc_eq, sortLoans_desc_eq]
      exact (List.sorted_insertionSort _ l).insertionSort_eq
  · intro l col
    rw [sortLoans_asc_eq]
    refine (List.sorted_insertionSort _ l).imp ?_
    intro a b hr
    rw [jsCompare_asc] at hr
    intro hkey
    rw [threeWay_tie col hkey] at hr
    omega
  · intro l col
    rw [sortLoans_desc_eq]
    refine (List.sorted_insertionSort _ l).imp ?_
    intro a b hr
    rw [jsCompare_desc] at hr
    intro hkey
    have hkey2 : colCmp col b a = Ordering.eq := by
      rw [colCmp_swap, hkey]
      rfl
    rw [threeWay_tie col hkey2] at hr
    omega

/-! C8: filter monotonicity and the status "All" no-op. -/

theorem str_empty_le (s : String) : "" ≤ s := by
  rw [String.le_iff_toList_le]
  exact List.nil_le

theorem str_le_empty {s : String} (h : s ≤ "") : s = "" :=
  le_antisymm h (str_empty_le s)

/-- One criteria record constrains at least as much as another: each
dimension is unchanged, newly constrained where it was unconstrained, or
tightened (amount bounds move inward, date bounds move inward and stay
truthy). -/
structure Strengthens (c c' : FilterState) : Prop where
  search : c.search = "" ∨ c'.search = c.search
  status : c.status = "" ∨ c.status = "All" ∨ c'.status = c.status
  minA : ∀ m, c.minAmount = some m → ∃ m2, c'.minAmount = some m2 ∧ m ≤ m2
  maxA : ∀ m, c.maxAmount = some m → ∃ m2, c'.maxAmount = some m2 ∧ m2 ≤ m
  startD : ∀ s, c.startDate = some s →
    s = "" ∨ ∃ s2, c'.startDate = some s2 ∧ s ≤ s2
  endD : ∀ s, c.endDate = some s →
    s = "" ∨ ∃ s2, c'.endDate = some s2 ∧ s2 ≤ s ∧ s2 ≠ ""

theorem searchPass_mono {c c' : FilterState} {loan : Loan}
    (h : c.search = "" ∨ c'.search = c.search)
    (hp : searchPass c' loan = true) : searchPass c loan = true := by
  rcases h with h | h
  · simp [searchPass, h]
  · unfold searchPass at hp ⊢
    rw [h] at hp
    exact hp

theorem statusPass_mono {c c' : FilterState} {loan : Loan}
    (h : c.status = "" ∨ c.status = "All" ∨ c'.status = c.status)
    (hp : statusPass c' loan = true) : statusPass c loan = true := by
  rcases h with h | h | h
  · simp [statusPass, h]
  · simp [statusPass, h]
  · unfold statusPass at hp ⊢
    rw [h] at hp
    exact hp

theorem minAmountPass_mono {c c' : FilterState} {loan : Loan}
    (h : ∀ m, c.minAmount = some m → ∃ m2, c'.minAmount = some m2 ∧ m ≤ m2)
    (hp : minAmountPass c' loan = true) : minAmountPass c loan = true := by
  unfold minAmountPass at hp ⊢
  cases hm : c.minAmount with
  | none => rfl
  | some m =>
    obtain ⟨m2, hm2, hle⟩ := h m hm
    rw [hm2] at hp
    simp only [decide_eq_true_eq] at hp ⊢
    omega

theorem maxAmountPass_mono {c c' : FilterState} {loan : Loan}
    (h : ∀ m, c.maxAmount = some m → ∃ m2, c'.maxAmount = some m2 ∧ m2 ≤ m)
    (hp : maxAmountPass c' loan = true) : maxAmountPass c loan = true := by
  unfold maxAmountPass at hp ⊢
  cases hm : c.maxAmount with
  | none => rfl
  | some m =>
    obtain ⟨m2, hm2, hle⟩ := h m hm
    rw [hm2] at hp
    simp only [decide_eq_true_eq] at hp ⊢
    omega

theorem startDatePass_mono {c c' : FilterState} {loan : Loan}
    (h : ∀ s, c.startDate = some s →
      s = "" ∨ ∃ s2, c'.startDate = some s2 ∧ s ≤ s2)
    (hp : startDatePass c' loan = true) : startDatePass c loan = true := by
  unfold startDatePass at hp ⊢
  cases hs : c.startDate with
  | none => rfl
  | some s =>
    rcases h s hs with h0 | ⟨s2, hs2, hle⟩
    · simp [h0]
    · rw [hs2] at hp
      simp only [Bool.or_eq_true, decide_eq_true_eq] at hp ⊢
      rcases hp with h2 | h2
      · exact Or.inl (str_le_empty (h2 ▸ hle))
      · exact Or.inr (fun hlt => h2 (lt_of_lt_of_le hlt hle))

theorem endDatePass_mono {c c' : FilterState} {loan : Loan}
    (h : ∀ s, c.endDate = some s →
      s = "" ∨ ∃ s2, c'.endDate = some s2 ∧ s2 ≤ s ∧ s2 ≠ "")
    (hp : endDatePass c' loan = true) : endDatePass c loan = true := by
  unfold endDatePass at hp ⊢
  cases hs : c.endDate with
  | none => rfl
  | some s =>
    rcases h s hs with h0 | ⟨s2, hs2, hle, hne⟩
    · simp [h0]
    · rw [hs2] at hp
      simp only [Bool.or_eq_true, decide_eq_true_eq] at hp ⊢
      rcases hp with h2 | h2
      · exact absurd h2 hne
      · exact Or.inr (fun hlt => h2 (lt_of_le_of_lt hle hlt))

theorem loanMatches_mono {c c' : FilterState} (hs : Strengthens c c')
    (loan : Loan) (hp : loanMatches c' loan = true) :
    loanMatches c loan = true := by
  unfold loanMatches at hp ⊢
  simp only [Bool.and_eq_true] at hp ⊢
  obtain ⟨⟨⟨⟨⟨h1, h2⟩, h3⟩, h4⟩, h5⟩, h6⟩ := hp
  exact ⟨⟨⟨⟨⟨searchPass_mono hs.search h1, statusPass_mono hs.status h2⟩,
    minAmountPass_mono hs.minA h3⟩, maxAmountPass_mono hs.maxA h4⟩,
    startDatePass_mono hs.startD h5⟩, endDatePass_mono hs.endD h6⟩

theorem filter_length_mono {α : Type} (l : List α) (p q : α → Bool)
    (h : ∀ x, p x = true → q x = true) :
    (l.filter p).length ≤ (l.filter q).length := by
  induction l with
  | nil => simp
  | cons x xs ih =>
    by_cases hp : p x = true
    · rw [List.filter_cons_of_pos hp, List.filter_cons_of_pos (h x hp)]
      simpa using ih
    · rw [List.filter_cons_of_neg (by simpa using hp)]
      by_cases hq : q x = true
      · rw [List.filter_cons_of_pos hq]
        exact ih.trans (by simp)
      · rw [List.filter_cons_of_neg (by simpa using hq)]
        exact ih

/-- C8: strengthening the criteria (adding or tightening any present
constraint) never increases the size of the filtered result, and status
"All" filters exactly like the absent (empty-string, falsy) status
constraint. -/
theorem c8_filter_monotone_all_noop :
    (∀ (l : List Loan) (c c' : FilterState), Strengthens c c' →
      (filterLoans l c').length ≤ (filterLoans l c).length) ∧
    (∀ (l : List Loan) (c : FilterState),
      filterLoans l { c with status := "All" } =
        filterLoans l { c with status := "" }) := by
  constructor
  · intro l c c' hs
    exact filter_length_mono l _ _ (loanMatches_mono hs)
  · intro l c
    unfold filterLoans
    apply List.filter_congr
    intro x _
    have hA : statusPass { c with status := "All" } x = true := by
      simp [statusPass]
    have hE : statusPass { c with status := "" } x = true := by
      simp [statusPass]
    simp only [loanMatches, hA, hE]
    rfl

/-- C8 witness: restricting the default criteria to status Approved cannot
grow the filtered result on a sample dataset. -/
theorem c8_filter_monotone_all_noop_witness :
    Strengthens initialFilter { initialFilter with status := "Approved" } ∧
    (filterLoans [loanAlice] { initialFilter with status := "Approved" }).length ≤
      (filterLoans [loanAlice] initialFilter).length := by
  have hs : Strengthens initialFilter { initialFilter with status := "Approved" } := by
    refine ⟨Or.inl rfl, Or.inr (Or.inl rfl), ?_, ?_, ?_, ?_⟩ <;>
      intro v hv <;> exact Option.noConfusion hv
  exact ⟨hs, c8_filter_monotone_all_noop.1 [loanAlice] initialFilter _ hs⟩

/-! C9: loadInitialData error handling. -/

theorem loadNextPage_error (s : StoreState) :
    (loadNextPage s).error = s.error := by
  simp only [loadNextPage]
  split <;> rfl

/-- C9: `loadInitialData` never lets a failure escape to its caller (the
catch block converts every throw into recorded state), leaves the loading
flag cleared on every exit path, records an error message on every failure
path while leaving the loaded rows empty when they were empty, and clears
the error on success. -/
theorem c9_loadInitialData_error_handling :
    ∀ (s : StoreState) (o : FetchOutcome),
      (∃ s2, loadInitialDataRun s o = Except.ok s2) ∧
      (loadInitialData s o).isLoading = false ∧
      (o.isFailure = true → ∃ msg, (loadInitialData s o).error = some msg) ∧
      (o.isFailure = true → s.loadedLoans = [] →
        (loadInitialData s o).loadedLoans = []) ∧
      (o.isFailure = false → (loadInitialData s o).error = Option.none) := by
  intro s o
  cases o with
  | ok data =>
    refine ⟨⟨_, rfl⟩, rfl, ?_, ?_, ?_⟩
    · intro hf
      simp [FetchOutcome.isFailure] at hf
    · intro hf
      simp [FetchOutcome.isFailure] at hf
    · intro _
      show (loadNextPage _).error = Option.none
      rw [loadNextPage_error]
  | notOk st =>
    exact ⟨⟨_, rfl⟩, rfl, fun _ => ⟨_, rfl⟩, fun _ h => h, fun hf => by cases hf⟩
  | fetchRejected e =>
    exact ⟨⟨_, rfl⟩, rfl, fun _ => ⟨_, rfl⟩, fun _ h => h, fun hf => by cases hf⟩
  | parseFailed e =>
    exact ⟨⟨_, rfl⟩, rfl, fun _ => ⟨_, rfl⟩, fun _ h => h, fun hf => by cases hf⟩

/-- C9 witness: a non-OK response on the fresh store records a message,
clears the loading flag and leaves no rows loaded. -/
theorem c9_loadInitialData_error_handling_witness :
    (FetchOutcome.notOk "Internal Server Error").isFailure = true ∧
    moduleInit.loadedLoans = [] ∧
    (∃ msg, (loadInitialData moduleInit
      (FetchOutcome.notOk "Internal Server Error")).error = some msg) ∧
    (loadInitialData moduleInit
      (FetchOutcome.notOk "Internal Server Error")).loadedLoans = [] := by
  have h := c9_loadInitialData_error_handling moduleInit
    (FetchOutcome.notOk "Internal Server Error")
  exact ⟨rfl, rfl, h.2.2.1 rfl, h.2.2.2.1 rfl rfl⟩

end LoanGrid
